import Mathlib

/-!
Verification of the `astroquery.vo` registry client (`RegistryClass` in
`astroquery/vo/core.py`): the ADQL query builder `_build_adql`, the query
orchestration `query`, and the VOTABLE response decoder
`_astropy_table_from_votable_response`, shallowly embedded in Lean.

Python strings are Lean `String`s; the `**kwargs` dictionary is an
association list iterated in order (a Python dict has unique keys, so the
fold below agrees with the source's `for key,val in kwargs.items()` loop);
`str.join`, `in` (substring test) and `str.lower` are given executable
Lean counterparts.
-/

namespace AstroqueryVO

/-- Python `str.lower()` (ASCII case folding suffices for the values used here). -/
def lowerStr (s : String) : String := String.mk (s.data.map Char.toLower)

/-- `headMatches needle hay`: `needle` occurs at the very start of `hay`. -/
def headMatches : List Char → List Char → Bool
  | [], _ => true
  | _ :: _, [] => false
  | n :: ns, h :: hs => n == h && headMatches ns hs

/-- `listHasSub hay needle`: `needle` occurs contiguously somewhere in `hay`
(Python's `needle in hay` for strings, as lists of characters). -/
def listHasSub : List Char → List Char → Bool
  | [], needle => needle.isEmpty
  | h :: t, needle => headMatches needle (h :: t) || listHasSub t needle

/-- Python's substring membership test `needle in hay`. -/
def strHasSub (hay needle : String) : Bool := listHasSub hay.data needle.data

/-- Python `sep.join(ws)`. -/
def pyJoin (sep : String) : List String → String
  | [] => ""
  | [w] => w
  | w :: ws => w ++ sep ++ pyJoin sep ws

/-- The local variables of `_build_adql` after the keyword-recognition loop,
with the source's default values (`core.py` lines 112-118). -/
structure Filters where
  service_type : String := ""
  keyword : String := ""
  waveband : String := ""
  source : String := ""
  order_by : String := ""
  logic_string : String := " and "
  deriving DecidableEq, Repr

/-- One iteration of the `for key,val in kwargs.items()` recognition loop
(`core.py` lines 120-133): the `if/elif` chain on the key. -/
def applyKwarg (f : Filters) (kv : String × String) : Filters :=
  if kv.1 == "service_type" then { f with service_type := kv.2 }
  else if kv.1 == "keyword" then { f with keyword := kv.2 }
  else if kv.1 == "waveband" then { f with waveband := kv.2 }
  else if kv.1 == "source" then { f with source := kv.2 }
  else if kv.1 == "order_by" then { f with order_by := kv.2 }
  else if kv.1 == "logic_string" then { f with logic_string := kv.2 }
  else f

/-- The whole recognition loop over the `kwargs` items. -/
def collectKwargs (kwargs : List (String × String)) : Filters :=
  kwargs.foldl applyKwarg {}

/-- Normalization of `service_type` (`core.py` lines 136-141). -/
def normalizeServiceType (s : String) : String :=
  if strHasSub (lowerStr s) "image" then "simpleimageaccess"
  else if strHasSub (lowerStr s) "spectr" then "simplespectralaccess"
  else if strHasSub (lowerStr s) "cone" then "simpleconesearch"
  else s

/-- The `query_retcols` triple-quoted literal (`core.py` lines 144-148),
with its exact whitespace. -/
def queryRetcols : String :=
  "\n          select res.short_name,cap.ivoid\n           from rr.capability cap\n           natural join rr.resource res\n           "

/-- The `wheres` predicate list (`core.py` lines 152-156), built after the
`service_type` reassignment, so from the normalized value. -/
def wheresOf (f : Filters) : List String :=
  (if normalizeServiceType f.service_type ≠ "" then
    ["cap.cap_type='" ++ normalizeServiceType f.service_type ++ "'"] else [])
  ++ (if f.source ≠ "" then ["cap.ivoid like '%" ++ f.source ++ "%'"] else [])

/-- `query_where` after line 158: the unconditional `"where "` prefix followed
by `logic_string.join(wheres)`. -/
def queryWhereOf (f : Filters) : String :=
  "where " ++ pyJoin f.logic_string (wheresOf f)

/-- `query_order` (`core.py` lines 160-162). -/
def queryOrderOf (f : Filters) : String :=
  if f.order_by ≠ "" then "order by " ++ f.order_by else ""

/-- `RegistryClass._build_adql` (`core.py` lines 110-166):
`query_retcols + query_where + query_order`. -/
def buildAdql (kwargs : List (String × String)) : String :=
  queryRetcols ++ queryWhereOf (collectKwargs kwargs) ++ queryOrderOf (collectKwargs kwargs)

/-- A decoded table cell. Astropy stores VOTABLE string values as byte
strings; `Cell.bytes s` is a raw byte-string cell whose decoded string
content is `s`, and `Cell.text s` a plain-text cell. -/
inductive Cell where
  | bytes : String → Cell
  | text : String → Cell
  deriving DecidableEq, Repr

/-- The astropy `Table` as far as this module observes it: column names and
rows of cells. -/
structure VOTable where
  colnames : List String
  rows : List (List Cell)
  deriving DecidableEq, Repr

/-- The errors the VOTABLE reader raises: a payload that is not a parseable
tabular document, or one containing zero tables. -/
inductive DecodeError where
  | malformed : DecodeError
  | noTable : DecodeError
  deriving DecidableEq, Repr

/-- A raw HTTP response body. -/
abbrev Bytes := List UInt8

/-- `io.BytesIO(response.content)` (`core.py` line 190): wrapping the bytes
in an in-memory stream; the content itself is unchanged. -/
def byteStream (content : Bytes) : Bytes := content

/-- Observer for decode outcomes: does the result hold a table? -/
def hasTable : Except DecodeError VOTable → Bool
  | Except.ok _ => true
  | Except.error _ => false

/-- `RegistryClass._astropy_table_from_votable_response` (`core.py` lines
169-201), parameterized by the external astropy reader `Table.read`: the
body is wrapped as a byte stream and handed to the reader, whose result is
returned unchanged — the `stringify_table(aptable)` post-processing call on
line 199 is commented out in the source, so no byte-to-text conversion is
applied and reader errors propagate uncaught. -/
def decodeTable (read : Bytes → Except DecodeError VOTable) (content : Bytes) :
    Except DecodeError VOTable :=
  read (byteStream content)

/-- Modelled from the spec: `stringify_table`, the byte-string-to-text
column conversion that section 4.2 requires of the decoder ("any column
holding raw byte-string values is converted to plain text"). The function
itself is referenced only in a commented-out line of `core.py` (line 199)
and its definition is not under `src/`. -/
def cellToText : Cell → Cell
  | Cell.bytes s => Cell.text s
  | Cell.text s => Cell.text s

/-- Modelled from the spec: table-wide byte-to-text conversion (see
`cellToText`). -/
def stringifyTable (t : VOTable) : VOTable :=
  { colnames := t.colnames, rows := t.rows.map (fun r => r.map cellToText) }

/-- An outbound HTTP request as `BaseQuery._request` receives it. -/
structure TapRequest where
  method : String
  url : String
  data : List (String × String)
  deriving DecidableEq, Repr

/-- `self._REGISTRY_TAP_SYNC_URL = conf.registry_tap_url + "/sync"`
(`core.py` line 77). -/
def registryTapSyncUrl (registry_tap_url : String) : String :=
  registry_tap_url ++ "/sync"

/-- The `tap_params` form dictionary (`core.py` lines 96-100). -/
def tapParams (adql : String) : List (String × String) :=
  [("request", "doQuery"), ("lang", "ADQL"), ("query", adql)]

/-- `RegistryClass.query` (`core.py` lines 80-108), with the transport
`send` and the astropy reader `read` as parameters. The first component of
the result is the log of HTTP requests issued during the call: the source
calls `self._request` exactly once, with method `POST`, the `/sync` URL and
the `tap_params` form data, and feeds the response to the decoder. -/
def query (baseUrl : String) (send : TapRequest → Bytes)
    (read : Bytes → Except DecodeError VOTable)
    (kwargs : List (String × String)) : List TapRequest × Except DecodeError VOTable :=
  let adql := buildAdql kwargs
  let req : TapRequest := { method := "POST", url := registryTapSyncUrl baseUrl,
                            data := tapParams adql }
  let response := send req
  ([req], decodeTable read response)

/-! ## Claims about the query builder -/

/-- Claim C1 (code evaluated at the failing input): with no recognized
filter keys set, `_build_adql` still emits the `where` keyword — the
output is the SELECT/FROM clause followed by a dangling `"where "` with no
predicates after it, so the claimed invariant "no WHERE keyword when zero
filters are supplied" fails on the code. -/
theorem buildAdql_empty_emits_dangling_where :
    buildAdql [] = queryRetcols ++ "where " ∧
    strHasSub (buildAdql []) "where" = true :=
  ⟨rfl, by decide⟩

/-- Claim C3: `service_type` normalization. If the value case-insensitively
contains `"image"` the cap_type predicate uses `simpleimageaccess`; else if
it contains `"spectr"`, `simplespectralaccess`; else if it contains
`"cone"`, `simpleconesearch`; otherwise the value is passed through
unchanged by the normalization and, when non-empty, appears verbatim in the
cap_type predicate. -/
theorem service_type_normalization (s : String) :
    (strHasSub (lowerStr s) "image" = true →
      buildAdql [("service_type", s)] =
        queryRetcols ++ "where cap.cap_type='simpleimageaccess'") ∧
    (strHasSub (lowerStr s) "image" = false →
      strHasSub (lowerStr s) "spectr" = true →
      buildAdql [("service_type", s)] =
        queryRetcols ++ "where cap.cap_type='simplespectralaccess'") ∧
    (strHasSub (lowerStr s) "image" = false →
      strHasSub (lowerStr s) "spectr" = false →
      strHasSub (lowerStr s) "cone" = true →
      buildAdql [("service_type", s)] =
        queryRetcols ++ "where cap.cap_type='simpleconesearch'") ∧
    (strHasSub (lowerStr s) "image" = false →
      strHasSub (lowerStr s) "spectr" = false →
      strHasSub (lowerStr s) "cone" = false →
      normalizeServiceType s = s ∧
      (s ≠ "" → buildAdql [("service_type", s)] =
        queryRetcols ++ "where cap.cap_type='" ++ s ++ "'")) := by
  have hc : collectKwargs [("service_type", s)] = { service_type := s } := rfl
  refine ⟨?_, ?_, ?_, ?_⟩
  · intro h1
    have hn : normalizeServiceType s = "simpleimageaccess" := by
      simp [normalizeServiceType, h1]
    simp [buildAdql, hc, queryWhereOf, queryOrderOf, wheresOf, hn, pyJoin]
  · intro h1 h2
    have hn : normalizeServiceType s = "simplespectralaccess" := by
      simp [normalizeServiceType, h1, h2]
    simp [buildAdql, hc, queryWhereOf, queryOrderOf, wheresOf, hn, pyJoin]
  · intro h1 h2 h3
    have hn : normalizeServiceType s = "simpleconesearch" := by
      simp [normalizeServiceType, h1, h2, h3]
    simp [buildAdql, hc, queryWhereOf, queryOrderOf, wheresOf, hn, pyJoin]
  · intro h1 h2 h3
    have hn : normalizeServiceType s = s := by
      simp [normalizeServiceType, h1, h2, h3]
    refine ⟨hn, fun hne => ?_⟩
    simp only [buildAdql, hc, queryWhereOf, queryOrderOf, wheresOf, hn, pyJoin,
      String.append_assoc, String.append_empty]
    simp [hne, pyJoin, String.append_assoc, String.append_empty]
    rw [← String.append_assoc]
    rfl

/-- Claim C3 witness: all four normalization branches at concrete inputs. -/
theorem service_type_normalization_witness :
    buildAdql [("service_type", "Image")] =
      queryRetcols ++ "where cap.cap_type='simpleimageaccess'" ∧
    buildAdql [("service_type", "X-Spectra")] =
      queryRetcols ++ "where cap.cap_type='simplespectralaccess'" ∧
    buildAdql [("service_type", "ConeSearch")] =
      queryRetcols ++ "where cap.cap_type='simpleconesearch'" ∧
    normalizeServiceType "tap" = "tap" ∧
    buildAdql [("service_type", "tap")] =
      queryRetcols ++ "where cap.cap_type='" ++ "tap" ++ "'" :=
  ⟨(service_type_normalization "Image").1 (by decide),
   (service_type_normalization "X-Spectra").2.1 (by decide) (by decide),
   (service_type_normalization "ConeSearch").2.2.1 (by decide) (by decide) (by decide),
   ((service_type_normalization "tap").2.2.2 (by decide) (by decide) (by decide)).1,
   ((service_type_normalization "tap").2.2.2 (by decide) (by decide) (by decide)).2
     (by decide)⟩

/-- Claim C4: when the only non-empty recognized value filter is
`source = "stsci"`, the built query contains the substring predicate
`ivoid like '%stsci%'` and contains no `cap_type` predicate. -/
theorem source_only_gives_ivoid_like (kwargs : List (String × String))
    (h1 : (collectKwargs kwargs).service_type = "")
    (h2 : (collectKwargs kwargs).source = "stsci")
    (h3 : (collectKwargs kwargs).order_by = "") :
    strHasSub (buildAdql kwargs) "ivoid like '%stsci%'" = true ∧
    strHasSub (buildAdql kwargs) "cap_type" = false := by
  have hb : buildAdql kwargs = queryRetcols ++ "where cap.ivoid like '%stsci%'" := by
    simp only [buildAdql, queryWhereOf, queryOrderOf, wheresOf, h1, h2, h3]
    simp [normalizeServiceType, pyJoin]
  rw [hb]
  constructor <;> decide

/-- Claim C4 witness: the statement discharged at `kwargs = [("source", "stsci")]`. -/
theorem source_only_gives_ivoid_like_witness :
    strHasSub (buildAdql [("source", "stsci")]) "ivoid like '%stsci%'" = true ∧
    strHasSub (buildAdql [("source", "stsci")]) "cap_type" = false :=
  source_only_gives_ivoid_like [("source", "stsci")] rfl rfl rfl

/-- Claim C5: when both the cap_type and the ivoid predicates are present
and `logic_string` is not supplied, they are joined by exactly `" and "`
(lowercase, one space each side); when `logic_string` is supplied, its
value is inserted between the predicates verbatim. -/
theorem predicates_joined_by_logic_string (st src L : String)
    (hst : normalizeServiceType st ≠ "") (hsrc : src ≠ "") :
    buildAdql [("service_type", st), ("source", src)] =
      queryRetcols ++ ("where " ++
        ("cap.cap_type='" ++ normalizeServiceType st ++ "'" ++ " and " ++
          ("cap.ivoid like '%" ++ src ++ "%'"))) ∧
    buildAdql [("service_type", st), ("source", src), ("logic_string", L)] =
      queryRetcols ++ ("where " ++
        ("cap.cap_type='" ++ normalizeServiceType st ++ "'" ++ L ++
          ("cap.ivoid like '%" ++ src ++ "%'"))) := by
  have hc : collectKwargs [("service_type", st), ("source", src)] =
      { service_type := st, source := src } := rfl
  have hc2 : collectKwargs [("service_type", st), ("source", src), ("logic_string", L)] =
      { service_type := st, source := src, logic_string := L } := rfl
  have h1 : wheresOf { service_type := st, source := src } =
      ["cap.cap_type='" ++ normalizeServiceType st ++ "'",
       "cap.ivoid like '%" ++ src ++ "%'"] := by
    simp [wheresOf, hst, hsrc]
  have h1b : wheresOf { service_type := st, source := src, logic_string := L } =
      ["cap.cap_type='" ++ normalizeServiceType st ++ "'",
       "cap.ivoid like '%" ++ src ++ "%'"] := by
    simp [wheresOf, hst, hsrc]
  constructor
  · unfold buildAdql queryWhereOf
    rw [hc, h1]
    rw [show queryOrderOf { service_type := st, source := src } = "" from rfl,
      String.append_empty]
    rfl
  · unfold buildAdql queryWhereOf
    rw [hc2, h1b]
    rw [show queryOrderOf { service_type := st, source := src, logic_string := L } = ""
      from rfl, String.append_empty]
    rfl

/-- Claim C5 witness: both conjuncts discharged at
`service_type = "Image"`, `source = "stsci"`, `logic_string = " or "`. -/
theorem predicates_joined_by_logic_string_witness :
    buildAdql [("service_type", "Image"), ("source", "stsci")] =
      queryRetcols ++ ("where " ++
        ("cap.cap_type='" ++ normalizeServiceType "Image" ++ "'" ++ " and " ++
          ("cap.ivoid like '%" ++ "stsci" ++ "%'"))) ∧
    buildAdql [("service_type", "Image"), ("source", "stsci"), ("logic_string", " or ")] =
      queryRetcols ++ ("where " ++
        ("cap.cap_type='" ++ normalizeServiceType "Image" ++ "'" ++ " or " ++
          ("cap.ivoid like '%" ++ "stsci" ++ "%'"))) :=
  predicates_joined_by_logic_string "Image" "stsci" " or " (by decide) (by decide)

/-- Claim C6: when `order_by` is non-empty the built query is the prefix
followed by exactly `"order by " ++ order_by` (so it ends with that
suffix); when `order_by` is empty nothing is appended after the WHERE
part. -/
theorem order_by_appended_iff_nonempty (kwargs : List (String × String)) :
    ((collectKwargs kwargs).order_by ≠ "" →
      buildAdql kwargs = queryRetcols ++ queryWhereOf (collectKwargs kwargs) ++
        ("order by " ++ (collectKwargs kwargs).order_by)) ∧
    ((collectKwargs kwargs).order_by = "" →
      buildAdql kwargs = queryRetcols ++ queryWhereOf (collectKwargs kwargs)) := by
  constructor
  · intro h
    simp [buildAdql, queryOrderOf, h, String.append_assoc]
  · intro h
    simp [buildAdql, queryOrderOf, h, String.append_empty]

/-- Claim C6 witness: both branches at concrete inputs, plus the suffix
check of the spec example `order by short_name`. -/
theorem order_by_appended_iff_nonempty_witness :
    (buildAdql [("source", "stsci"), ("order_by", "short_name")] =
      queryRetcols ++ queryWhereOf (collectKwargs [("source", "stsci"), ("order_by", "short_name")]) ++
        ("order by " ++ (collectKwargs [("source", "stsci"), ("order_by", "short_name")]).order_by)) ∧
    (buildAdql [("source", "stsci")] =
      queryRetcols ++ queryWhereOf (collectKwargs [("source", "stsci")])) :=
  ⟨(order_by_appended_iff_nonempty [("source", "stsci"), ("order_by", "short_name")]).1
      (by decide),
   (order_by_appended_iff_nonempty [("source", "stsci")]).2 rfl⟩

/-- Claim C7: the built query depends only on the extracted
`service_type`, `source`, `order_by` and `logic_string` values — two
kwargs lists that agree on those four (so may differ arbitrarily in
`keyword`, `waveband` and unrecognized keys, all accepted without error)
produce the same string. -/
theorem builder_ignores_keyword_waveband_unrecognized
    (k1 k2 : List (String × String))
    (hs : (collectKwargs k1).service_type = (collectKwargs k2).service_type)
    (hsrc : (collectKwargs k1).source = (collectKwargs k2).source)
    (hob : (collectKwargs k1).order_by = (collectKwargs k2).order_by)
    (hl : (collectKwargs k1).logic_string = (collectKwargs k2).logic_string) :
    buildAdql k1 = buildAdql k2 := by
  simp [buildAdql, queryWhereOf, queryOrderOf, wheresOf, hs, hsrc, hob, hl]

/-- Claim C7 witness: differing `keyword`, `waveband` and an unrecognized
key leave the output unchanged. -/
theorem builder_ignores_keyword_waveband_unrecognized_witness :
    buildAdql [("keyword", "hst"), ("waveband", "optical"), ("mystery", "zzz"), ("source", "stsci")] =
      buildAdql [("source", "stsci"), ("keyword", "other")] :=
  builder_ignores_keyword_waveband_unrecognized
    [("keyword", "hst"), ("waveband", "optical"), ("mystery", "zzz"), ("source", "stsci")]
    [("source", "stsci"), ("keyword", "other")] rfl rfl rfl rfl

/-- Claim C10: with at least one WHERE predicate and a non-empty
`order_by`, the joined predicates are immediately followed by
`"order by "` with no separating whitespace
(`query=query_retcols+query_where+query_order` inserts nothing between
the parts). -/
theorem where_and_order_concatenated_without_space (kwargs : List (String × String))
    (hw : wheresOf (collectKwargs kwargs) ≠ [])
    (hob : (collectKwargs kwargs).order_by ≠ "") :
    buildAdql kwargs =
      queryRetcols ++ "where " ++
        (pyJoin (collectKwargs kwargs).logic_string (wheresOf (collectKwargs kwargs)) ++
          ("order by " ++ (collectKwargs kwargs).order_by)) := by
  clear hw
  simp [buildAdql, queryWhereOf, queryOrderOf, hob, String.append_assoc]

/-- Claim C10 witness: at `source = "stsci"`, `order_by = "short_name"`
the output contains `'%stsci%'order by short_name` — the last predicate
directly abuts the ORDER BY text. -/
theorem where_and_order_concatenated_without_space_witness :
    buildAdql [("source", "stsci"), ("order_by", "short_name")] =
      queryRetcols ++ "where " ++
        (pyJoin (collectKwargs [("source", "stsci"), ("order_by", "short_name")]).logic_string
            (wheresOf (collectKwargs [("source", "stsci"), ("order_by", "short_name")])) ++
          ("order by " ++ (collectKwargs [("source", "stsci"), ("order_by", "short_name")]).order_by)) ∧
    strHasSub (buildAdql [("source", "stsci"), ("order_by", "short_name")])
      "'%stsci%'order by short_name" = true :=
  ⟨where_and_order_concatenated_without_space [("source", "stsci"), ("order_by", "short_name")]
      (by decide) (by decide),
   by decide⟩

/-! ## Claims about the decoder and orchestration -/

/-- Claim C2 (code evaluated at the failing input): for a reader yielding a
two-column table `[a, b]` with byte-string cells, the decoder returns that
table with the byte-string cells unconverted — the byte-to-text
post-processing (`stringify_table`, which would change the table) is
commented out in the source, so byte-string values are not rendered as
text. -/
theorem decode_table_leaves_byte_cells :
    decodeTable
      (fun _ => Except.ok
        { colnames := ["a", "b"],
          rows := [[Cell.bytes "stsci", Cell.text "t1"], [Cell.bytes "mast", Cell.text "t2"]] })
      [] =
      Except.ok
        { colnames := ["a", "b"],
          rows := [[Cell.bytes "stsci", Cell.text "t1"], [Cell.bytes "mast", Cell.text "t2"]] } ∧
    stringifyTable
        { colnames := ["a", "b"],
          rows := [[Cell.bytes "stsci", Cell.text "t1"], [Cell.bytes "mast", Cell.text "t2"]] } ≠
      { colnames := ["a", "b"],
        rows := [[Cell.bytes "stsci", Cell.text "t1"], [Cell.bytes "mast", Cell.text "t2"]] } :=
  ⟨rfl, by decide⟩

/-- Claim C8: one call to `query` issues exactly one HTTP request, a POST
to the configured base URL with `/sync` appended whose form data is
exactly `request=doQuery, lang=ADQL, query=<built ADQL>`, and returns the
decoder's result on the transport's response to that request. -/
theorem query_single_post_and_decode (baseUrl : String) (send : TapRequest → Bytes)
    (read : Bytes → Except DecodeError VOTable) (kwargs : List (String × String)) :
    (query baseUrl send read kwargs).1 =
      [{ method := "POST", url := baseUrl ++ "/sync",
         data := [("request", "doQuery"), ("lang", "ADQL"), ("query", buildAdql kwargs)] }] ∧
    (query baseUrl send read kwargs).2 =
      decodeTable read (send
        { method := "POST", url := baseUrl ++ "/sync",
          data := [("request", "doQuery"), ("lang", "ADQL"), ("query", buildAdql kwargs)] }) :=
  ⟨rfl, rfl⟩

/-- Claim C9: whenever the tabular reader rejects the response body (not a
parseable VOTABLE, or zero tables), the decoder propagates that decode
error unchanged and returns no table — there is no partial or best-effort
result. -/
theorem decode_error_propagated_no_table (read : Bytes → Except DecodeError VOTable)
    (content : Bytes) (e : DecodeError) (h : read content = Except.error e) :
    decodeTable read content = Except.error e ∧
    hasTable (decodeTable read content) = false := by
  refine ⟨h, ?_⟩
  rw [show decodeTable read content = read content from rfl, h]
  rfl

/-- Claim C9 witness: a reader failing with `malformed` on the empty body. -/
theorem decode_error_propagated_no_table_witness :
    decodeTable (fun _ => Except.error DecodeError.malformed) [] =
      Except.error DecodeError.malformed ∧
    hasTable (decodeTable (fun _ => Except.error DecodeError.malformed) []) = false :=
  decode_error_propagated_no_table (fun _ => Except.error DecodeError.malformed) []
    DecodeError.malformed rfl

end AstroqueryVO
